import Mathlib

/-!
Hotel registry service (`src/index.js`)

A shallow embedding of the Express application in `src/index.js`: the in-memory
`hotels` array, the six route handlers and the router's first-match dispatch.

Modelling conventions

* The module-level `let hotels = [...]` is threaded explicitly: every handler takes the
  array and returns the response together with the array it leaves behind.
* Values that come out of `req.body` are untyped JavaScript values (`JsVal`); the handlers
  never validate types, so records store them as they arrive.  A destructured field that
  is missing from the body is `JsVal.undefined`.
* JavaScript numbers are modelled as rationals extended with `NaN` and the two infinities
  (`JsNum`); a number held in a value is the double it denotes, and the conversions from
  text round to the nearest double (`roundToDouble`).  The sign of zero is not kept.
* `new Date()` is an input of the handler (milliseconds since the epoch).
* `req.params.id` is a string.  A query parameter is absent, a string, or the array or
  object that the query parser builds from repeated or bracketed keys (`QVal`).
* The case table of `String.prototype.toLowerCase` is not code of this repository; the
  search handler takes it as the parameter `lowerCase`.
* `req.body` is the object parsed by `express.json()`; only the seven fields that the
  handlers destructure are kept.
-/

namespace HotelApi

/-! ## JavaScript values -/

/-- JavaScript numbers: the finite doubles as rationals, `NaN`, `-Infinity` and
`+Infinity`. -/
inductive JsNum where
  | nan
  | ninf
  | fin (q : Rat)
  | pinf
deriving DecidableEq

/-- Untyped values as produced by `express.json()` and by destructuring `req.body`. -/
inductive JsVal where
  | undefined
  | null
  | bool (b : Bool)
  | num (x : JsNum)
  | str (s : String)
  | arr (xs : List JsVal)
  | obj (kvs : List (String × JsVal))

/-- Values of `req.query`: a string, or the array or object that the query parser builds
from a repeated or bracketed key. -/
inductive QVal where
  | str (s : String)
  | arr (xs : List QVal)
  | obj (kvs : List (String × QVal))

/-- ECMAScript `ToBoolean`: the truthiness used by `!x`, `if (x)` and `x || y`.
Arrays and objects are always truthy, also when empty. -/
def JsVal.toBoolean : JsVal → Bool
  | .undefined => false
  | .null => false
  | .bool b => b
  | .num .nan => false
  | .num (.fin q) => decide (q ≠ 0)
  | .num .ninf => true
  | .num .pinf => true
  | .str s => decide (s ≠ "")
  | .arr _ => true
  | .obj _ => true

/-- The JavaScript expression `a || b`. -/
def JsVal.or (a b : JsVal) : JsVal :=
  if a.toBoolean then a else b

/-- ECMAScript `WhiteSpace` and `LineTerminator` code points, skipped by `parseInt`,
`parseFloat` and string-to-number conversion. -/
def isWhiteSpace (c : Char) : Bool :=
  let n := c.toNat
  n = 9 || n = 10 || n = 11 || n = 12 || n = 13 || n = 32 || n = 160 || n = 5760 ||
    (8192 ≤ n && n ≤ 8202) || n = 8232 || n = 8233 || n = 8239 || n = 8287 ||
    n = 12288 || n = 65279

/-- Value of `c` as a digit in the given radix, if it is one. -/
def digitVal (radix : Nat) (c : Char) : Option Nat :=
  let n := c.toNat
  let v : Option Nat :=
    if 48 ≤ n ∧ n ≤ 57 then some (n - 48)
    else if 97 ≤ n ∧ n ≤ 122 then some (n - 87)
    else if 65 ≤ n ∧ n ≤ 90 then some (n - 55)
    else none
  match v with
  | some d => if d < radix then some d else none
  | none => none

/-- The longest run of leading digits of the radix, as digit values. -/
def takeDigits (radix : Nat) : List Char → List Nat
  | [] => []
  | c :: cs =>
    match digitVal radix c with
    | some d => d :: takeDigits radix cs
    | none => []

/-- Value of a digit sequence, most significant digit first. -/
def digitsValue (radix : Nat) (ds : List Nat) : Nat :=
  ds.foldl (fun acc d => acc * radix + d) 0

/-- Splits an optional leading sign off: `true` for `-`. -/
def takeSign : List Char → Bool × List Char
  | '-' :: cs => (true, cs)
  | '+' :: cs => (false, cs)
  | cs => (false, cs)

/-- JavaScript `parseInt(s)` with no radix argument; `none` is `NaN`.
Leading white space is skipped, a sign and a `0x`/`0X` marker are honoured, and the
longest run of digits is read; with no digit the result is `NaN`. -/
def parseInt (s : String) : Option Int :=
  let cs := s.data.dropWhile isWhiteSpace
  let (neg, cs) := takeSign cs
  let (radix, cs) : Nat × List Char :=
    match cs with
    | '0' :: 'x' :: r => (16, r)
    | '0' :: 'X' :: r => (16, r)
    | _ => (10, cs)
  let ds := takeDigits radix cs
  if ds.isEmpty then none
  else
    let v : Int := (digitsValue radix ds : Nat)
    some (if neg then -v else v)

/-- The Number value of a real: the nearest IEEE 754 double, ties to the even significand.
With `e` the binary exponent of `|q|`, the spacing of doubles around `q` is `2 ^ p` with
`p = max e (-1022) - 52`; a result of `2 ^ 1024` or more is an infinity, and what rounds to
no multiple of `2 ^ (-1074)` is zero. -/
def roundToDouble (q : Rat) : JsNum :=
  if q = 0 then .fin 0
  else
    let a : Rat := |q|
    let k : Int := (Nat.log2 a.num.natAbs : Int) - (Nat.log2 a.den : Int)
    let e : Int := if (2 : Rat) ^ k ≤ a then k else k - 1
    let p : Int := max e (-1022) - 52
    let m : Rat := a / (2 : Rat) ^ p
    let f : Int := ⌊m⌋
    let r : Int :=
      if m - f < 1 / 2 then f
      else if 1 / 2 < m - f then f + 1
      else if f % 2 = 0 then f else f + 1
    let v : Rat := r * (2 : Rat) ^ p
    if (2 : Rat) ^ (1024 : Int) ≤ v then (if q < 0 then .ninf else .pinf)
    else .fin (if q < 0 then -v else v)

/-- Reads the longest leading `StrDecimalLiteral` (after the sign): the value read and the
characters left over, or `none` when no literal starts here. -/
def scanDecimal (neg : Bool) (cs : List Char) : Option (JsNum × List Char) :=
  if "Infinity".data.isPrefixOf cs then
    some (if neg then .ninf else .pinf, cs.drop 8)
  else
    let ip := takeDigits 10 cs
    let rest := cs.drop ip.length
    let (fp, rest) : List Nat × List Char :=
      match rest with
      | '.' :: r => (takeDigits 10 r, r.drop (takeDigits 10 r).length)
      | _ => ([], rest)
    if ip.isEmpty && fp.isEmpty then none
    else
      let (e, rest) : Int × List Char :=
        match rest with
        | [] => (0, rest)
        | c :: r =>
          if c = 'e' ∨ c = 'E' then
            let (eneg, r2) := takeSign r
            let ed := takeDigits 10 r2
            if ed.isEmpty then (0, rest)
            else
              let ev : Int := (digitsValue 10 ed : Nat)
              (if eneg then -ev else ev, r2.drop ed.length)
          else (0, rest)
      let m : Rat := (digitsValue 10 (ip ++ fp) : Nat)
      let q : Rat := m * (10 : Rat) ^ (e - (fp.length : Int))
      some (roundToDouble (if neg then -q else q), rest)

/-- JavaScript `parseFloat(s)`: the longest decimal literal after leading white space,
`NaN` when there is none. -/
def parseFloat (s : String) : JsNum :=
  let (neg, cs) := takeSign (s.data.dropWhile isWhiteSpace)
  match scanDecimal neg cs with
  | some (x, _) => x
  | none => .nan

/-- ECMAScript `StringToNumber`: the whole trimmed string must be a numeric literal; the
empty string is `0`. -/
def stringToNumber (s : String) : JsNum :=
  let cs := ((s.data.dropWhile isWhiteSpace).reverse.dropWhile isWhiteSpace).reverse
  let radixLit (radix : Nat) (r : List Char) : JsNum :=
    let ds := takeDigits radix r
    if !ds.isEmpty && ds.length = r.length then roundToDouble (digitsValue radix ds : Nat)
    else .nan
  match cs with
  | [] => .fin 0
  | '0' :: 'x' :: r => radixLit 16 r
  | '0' :: 'X' :: r => radixLit 16 r
  | '0' :: 'o' :: r => radixLit 8 r
  | '0' :: 'O' :: r => radixLit 8 r
  | '0' :: 'b' :: r => radixLit 2 r
  | '0' :: 'B' :: r => radixLit 2 r
  | _ =>
    let (neg, r) := takeSign cs
    match scanDecimal neg r with
    | some (x, []) => x
    | _ => .nan

/-- Whether an object has an own property `toString`.  Its value comes from JSON or from
the query string, so it is never a function. -/
def hasOwnToString {α : Type} (kvs : List (String × α)) : Bool :=
  kvs.any (fun kv => kv.1 = "toString")

mutual
/-- Whether the conversion of a value to a primitive returns: an object whose own
`toString` is not callable makes `ToPrimitive` throw a `TypeError`, and an array is joined
from the strings of its elements, so it throws when one of them does. -/
def JsVal.converts : JsVal → Bool
  | .obj kvs => !hasOwnToString kvs
  | .arr xs => JsVal.allConvert xs
  | _ => true
/-- Every element of the list converts. -/
def JsVal.allConvert : List JsVal → Bool
  | [] => true
  | x :: xs => x.converts && JsVal.allConvert xs
end

/-- The number that `ToNumber` gives for a value whose conversion to a primitive returns.
An array is first turned into its string: no element gives the empty string, one element
gives that element's string, and two or more give a string with a comma, which is no
numeric literal; an object gives the string `[object Object]`. -/
def JsVal.numberValue : JsVal → JsNum
  | .undefined => .nan
  | .null => .fin 0
  | .bool b => if b then .fin 1 else .fin 0
  | .num x => x
  | .str s => stringToNumber s
  | .arr [] => .fin 0
  | .arr [.undefined] => .fin 0
  | .arr [.null] => .fin 0
  | .arr [.bool _] => .nan
  | .arr [.obj _] => .nan
  | .arr [x] => x.numberValue
  | .arr _ => .nan
  | .obj _ => .nan

/-- ECMAScript `ToNumber`, as applied to the stored price in `price >= n` and `price <= n`
when `n` is a number; `none` is the `TypeError` thrown by the conversion to a primitive. -/
def JsVal.toNumber (v : JsVal) : Option JsNum :=
  if v.converts then some v.numberValue else none

mutual
/-- ECMAScript `ToString` on a query value; `none` is the `TypeError` thrown for an object
whose own `toString` is not callable.  An array is joined with commas. -/
def QVal.toStr : QVal → Option String
  | .str s => some s
  | .arr xs =>
    match QVal.toStrs xs with
    | some parts => some (",".intercalate parts)
    | none => none
  | .obj kvs => if hasOwnToString kvs then none else some "[object Object]"
/-- The strings of the elements of an array, in order. -/
def QVal.toStrs : List QVal → Option (List String)
  | [] => some []
  | x :: xs =>
    match x.toStr, QVal.toStrs xs with
    | some s, some ss => some (s :: ss)
    | _, _ => none
end

/-- Truthiness of a query value: every array and object, and every string but the empty
one. -/
def QVal.toBoolean : QVal → Bool
  | .str s => decide (s ≠ "")
  | .arr _ => true
  | .obj _ => true

/-- The comparison `a <= b` on numbers: false as soon as one side is `NaN`. -/
def JsNum.le : JsNum → JsNum → Bool
  | .nan, _ => false
  | _, .nan => false
  | .ninf, _ => true
  | _, .pinf => true
  | .fin a, .fin b => decide (a ≤ b)
  | .fin _, .ninf => false
  | .pinf, _ => false

/-- Lower-casing of the ASCII letters, which is what the case-insensitive match of a route
path against the ASCII literals of this router amounts to. -/
def toLowerCase (s : String) : String :=
  String.mk (s.data.map Char.toLower)

/-- The method `String.prototype.includes`: `needle` occurs in `hay` as a contiguous run. -/
def includes (hay needle : String) : Bool :=
  hay.data.tails.any (fun t => needle.data.isPrefixOf t)

/-! ## Data model -/

/-- One element of the `hotels` array.  `id` is only ever written from the literals `1`, `2`
and from `hotels.length + 1`, so it is a natural number; the other fields hold whatever the
request body supplied.  `created_at` is the `Date` in milliseconds. -/
structure Hotel where
  id : Nat
  name : JsVal
  location : JsVal
  description : JsVal
  price : JsVal
  amenities : JsVal
  rating : JsVal
  available_rooms : JsVal
  created_at : Nat

/-- The fields that the POST and PUT handlers destructure from `req.body`; a field missing
from the body is `JsVal.undefined`. -/
structure Payload where
  name : JsVal
  location : JsVal
  description : JsVal
  price : JsVal
  amenities : JsVal
  rating : JsVal
  available_rooms : JsVal

/-- The fields that the search handler destructures from `req.query`; `none` is a missing
key (`undefined`). -/
structure Query where
  location : Option QVal
  min_price : Option QVal
  max_price : Option QVal

/-- What a handler sends: `res.json(record)`, `res.json(array)`, the JSON error object
`{ error: msg }`, nothing, the framework's page for an unrouted request, or the
framework's answer to an exception thrown by a handler. -/
inductive Body where
  | record (h : Hotel)
  | records (hs : List Hotel)
  | error (msg : String)
  | empty
  | unrouted
  | exception

/-- An HTTP response: status code and body. -/
structure Response where
  status : Nat
  body : Body

/-- The first element of the initial array (lines 15-25), created at time `t`. -/
def hotelSunshine (t : Nat) : Hotel :=
  { id := 1
    name := .str "Hotel Sunshine"
    location := .str "Istanbul"
    description := .str "A comfortable hotel in the heart of Istanbul."
    price := .num (.fin 100)
    amenities := .arr [.str "WiFi", .str "Breakfast", .str "Gym"]
    rating := .num (.fin 4.5)
    available_rooms := .num (.fin 10)
    created_at := t }

/-- The second element of the initial array (lines 26-36), created at time `t`. -/
def seasideResort (t : Nat) : Hotel :=
  { id := 2
    name := .str "Seaside Resort"
    location := .str "Antalya"
    description := .str "Enjoy a relaxing seaside experience."
    price := .num (.fin 150)
    amenities := .arr [.str "Pool", .str "Beach Access", .str "Spa"]
    rating := .num (.fin 4.7)
    available_rooms := .num (.fin 5)
    created_at := t }

/-- The initial value of `hotels` (lines 14-37); `t0` and `t1` are the two `new Date()`
readings taken while the module loads. -/
def seed (t0 t1 : Nat) : List Hotel :=
  [hotelSunshine t0, seasideResort t1]

/-! ## Handlers -/

/-- The test `h.id === id` of the three by-id handlers, `id` being the result of
`parseInt`: never true for `NaN`. -/
def idMatches (id : Option Int) (h : Hotel) : Bool :=
  decide (id = some (h.id : Int))

/-- The call `hotels.sort((a, b) => b.created_at - a.created_at)`: a stable sort that puts
`a` before `b` when `b.created_at - a.created_at` is negative. -/
def sortByCreatedAtDesc (hotels : List Hotel) : List Hotel :=
  hotels.insertionSort (fun a b => b.created_at ≤ a.created_at)

/-- Handler of `GET /hotels` (lines 44-48).  `Array.prototype.sort` sorts in place and
returns the same array, so the stored array is the sorted one afterwards. -/
def listHandler (hotels : List Hotel) : Response × List Hotel :=
  let sortedHotels := sortByCreatedAtDesc hotels
  (⟨200, .records sortedHotels⟩, sortedHotels)

/-- Handler of `GET /hotels/:id` (lines 52-59). -/
def getByIdHandler (idParam : String) (hotels : List Hotel) : Response × List Hotel :=
  let id := parseInt idParam
  match hotels.find? (idMatches id) with
  | none => (⟨404, .error "Hotel not found"⟩, hotels)
  | some hotel => (⟨200, .record hotel⟩, hotels)

/-- The guard `!name || !location || !price || !amenities` of the POST handler. -/
def missingRequired (p : Payload) : Bool :=
  !p.name.toBoolean || !p.location.toBoolean || !p.price.toBoolean || !p.amenities.toBoolean

/-- The object literal `newHotel` of the POST handler (lines 68-78). -/
def newHotel (p : Payload) (now : Nat) (hotels : List Hotel) : Hotel :=
  { id := hotels.length + 1
    name := p.name
    location := p.location
    description := p.description.or (.str "")
    price := p.price
    amenities := p.amenities
    rating := p.rating.or .null
    available_rooms := p.available_rooms.or .null
    created_at := now }

/-- Handler of `POST /hotels` (lines 63-81). -/
def createHandler (p : Payload) (now : Nat) (hotels : List Hotel) : Response × List Hotel :=
  if missingRequired p then
    (⟨400, .error "Missing required fields: name, location, price, amenities"⟩, hotels)
  else
    let r := newHotel p now hotels
    (⟨201, .record r⟩, hotels ++ [r])

/-- The seven conditional assignments of the PUT handler (lines 92-98). -/
def applyUpdate (p : Payload) (hotel : Hotel) : Hotel :=
  let hotel := if p.name.toBoolean then { hotel with name := p.name } else hotel
  let hotel := if p.location.toBoolean then { hotel with location := p.location } else hotel
  let hotel :=
    if p.description.toBoolean then { hotel with description := p.description } else hotel
  let hotel := if p.price.toBoolean then { hotel with price := p.price } else hotel
  let hotel := if p.amenities.toBoolean then { hotel with amenities := p.amenities } else hotel
  let hotel := if p.rating.toBoolean then { hotel with rating := p.rating } else hotel
  if p.available_rooms.toBoolean then { hotel with available_rooms := p.available_rooms }
  else hotel

/-- In-place mutation of the object returned by `hotels.find`: the first element that
satisfies `test` is replaced by its image, the array is otherwise untouched. -/
def mutateFirst (test : Hotel → Bool) (f : Hotel → Hotel) : List Hotel → List Hotel
  | [] => []
  | h :: rest => if test h then f h :: rest else h :: mutateFirst test f rest

/-- Handler of `PUT /hotels/:id` (lines 85-100). -/
def updateHandler (idParam : String) (p : Payload) (hotels : List Hotel) :
    Response × List Hotel :=
  let id := parseInt idParam
  match hotels.find? (idMatches id) with
  | none => (⟨404, .error "Hotel not found"⟩, hotels)
  | some hotel =>
    (⟨200, .record (applyUpdate p hotel)⟩, mutateFirst (idMatches id) (applyUpdate p) hotels)

/-- The call `hotels.splice(index, 1)`: the removed elements and the array left behind. -/
def splice1 (index : Nat) (hotels : List Hotel) : List Hotel × List Hotel :=
  ((hotels.drop index).take 1, hotels.take index ++ hotels.drop (index + 1))

/-- Handler of `DELETE /hotels/:id` (lines 104-112); `findIdx?` returning `none` is
`findIndex` returning `-1`. -/
def deleteHandler (idParam : String) (hotels : List Hotel) : Response × List Hotel :=
  let id := parseInt idParam
  match hotels.findIdx? (idMatches id) with
  | none => (⟨404, .error "Hotel not found"⟩, hotels)
  | some index =>
    let (deletedHotel, remaining) := splice1 index hotels
    match deletedHotel.head? with
    | some h => (⟨200, .record h⟩, remaining)
    | none => (⟨200, .empty⟩, remaining)

/-- The tests `if (location)`, `if (min_price)`, `if (max_price)`: the parameter when it is
present and truthy. -/
def paramGiven : Option QVal → Option QVal
  | some v => if v.toBoolean then some v else none
  | none => none

/-- The callback `hotel.location.toLowerCase().includes(location.toLowerCase())`;
`none` is the `TypeError` thrown when the stored location or the parameter is not a string
(no other value has a callable `toLowerCase`). -/
def locationMatches (lowerCase : String → String) (location : QVal) (hotel : Hotel) :
    Option Bool :=
  match hotel.location, location with
  | .str stored, .str param => some (includes (lowerCase stored) (lowerCase param))
  | _, _ => none

/-- The call `parseFloat(v)` on a query value: the value is turned into a string first,
which may throw. -/
def parseFloatOf (v : QVal) : Option JsNum :=
  match v.toStr with
  | some s => some (parseFloat s)
  | none => none

/-- The callback `hotel.price >= parseFloat(min_price)`; `none` when `parseFloat` or the
conversion of the price throws. -/
def priceAtLeast (min_price : QVal) (hotel : Hotel) : Option Bool :=
  match parseFloatOf min_price, hotel.price.toNumber with
  | some bound, some price => some (bound.le price)
  | _, _ => none

/-- The callback `hotel.price <= parseFloat(max_price)`; `none` when `parseFloat` or the
conversion of the price throws. -/
def priceAtMost (max_price : QVal) (hotel : Hotel) : Option Bool :=
  match parseFloatOf max_price, hotel.price.toNumber with
  | some bound, some price => some (price.le bound)
  | _, _ => none

/-- The method `Array.prototype.filter` with a callback that may throw: the elements are
visited in order and the first exception aborts the call. -/
def filterThrowing (f : Hotel → Option Bool) : List Hotel → Option (List Hotel)
  | [] => some []
  | h :: rest =>
    match f h with
    | none => none
    | some keep =>
      match filterThrowing f rest with
      | none => none
      | some kept => some (if keep then h :: kept else kept)

/-- One `if (param) result = result.filter(callback)` statement of the search handler,
applied to the `result` of the statements before it (`none` once one of them has
thrown). -/
def filterIfGiven (param : Option QVal) (callback : QVal → Hotel → Option Bool)
    (result : Option (List Hotel)) : Option (List Hotel) :=
  match result with
  | none => none
  | some r =>
    match paramGiven param with
    | some v => filterThrowing (callback v) r
    | none => some r

/-- The array `result` of the search handler just before `res.json(result)`; `none` when
a filter callback threw. -/
def searchResult (lowerCase : String → String) (q : Query) (hotels : List Hotel) :
    Option (List Hotel) :=
  let result := filterIfGiven q.location (locationMatches lowerCase) (some hotels)
  let result := filterIfGiven q.min_price priceAtLeast result
  filterIfGiven q.max_price priceAtMost result

/-- Handler of `GET /hotels/search` (lines 116-130).  An exception escaping the handler is
answered by the framework with status 500. -/
def searchHandler (lowerCase : String → String) (q : Query) (hotels : List Hotel) :
    Response × List Hotel :=
  match searchResult lowerCase q hotels with
  | some result => (⟨200, .records result⟩, hotels)
  | none => (⟨500, .exception⟩, hotels)

/-! ## Router -/

/-- The HTTP methods for which the application registers routes. -/
inductive Method where
  | GET
  | POST
  | PUT
  | DELETE
deriving DecidableEq

/-- A request as the application sees it: method, URL path, parsed query and parsed body.
The path is taken without percent escapes: the framework decodes an escaped parameter
before the handler reads it and answers 400 to a malformed escape, which is not modelled. -/
structure Request where
  method : Method
  path : String
  query : Query
  body : Payload

/-- One segment of a route path: a literal or a named parameter such as `:id`. -/
inductive Seg where
  | lit (s : String)
  | param (name : String)

/-- The six handlers, by name. -/
inductive HandlerId where
  | list
  | getById
  | create
  | update
  | delete
  | search
deriving DecidableEq

/-- A registered route: `router.METHOD(path, handler)`. -/
structure Route where
  method : Method
  pattern : List Seg
  handler : HandlerId

/-- The router's stack, in the order of the `router.get/post/put/delete` calls of the
source (lines 44, 52, 63, 85, 104, 116). -/
def routes : List Route :=
  [ ⟨.GET, [.lit "hotels"], .list⟩,
    ⟨.GET, [.lit "hotels", .param "id"], .getById⟩,
    ⟨.POST, [.lit "hotels"], .create⟩,
    ⟨.PUT, [.lit "hotels", .param "id"], .update⟩,
    ⟨.DELETE, [.lit "hotels", .param "id"], .delete⟩,
    ⟨.GET, [.lit "hotels", .lit "search"], .search⟩ ]

/-- Splits a character sequence at every `/`. -/
def splitSlash : List Char → List (List Char)
  | [] => [[]]
  | c :: cs =>
    if c = '/' then [] :: splitSlash cs
    else
      match splitSlash cs with
      | seg :: segs => (c :: seg) :: segs
      | [] => [[c]]

/-- The segments of a URL path that starts with `/`; `none` for any other string. -/
def pathSegments (path : String) : Option (List String) :=
  match splitSlash path.data with
  | [] :: segs => some (segs.map String.mk)
  | _ => none

/-- Matching of a route path against the segments of the request path, as the framework
does by default: literals compare case-insensitively, a parameter takes one non-empty
segment, and one trailing `/` is tolerated.  The result is `req.params`. -/
def matchPattern : List Seg → List String → Option (List (String × String))
  | [], [] => some []
  | [], [last] => if last = "" then some [] else none
  | [], _ :: _ :: _ => none
  | _ :: _, [] => none
  | .lit s :: pat, x :: xs =>
    if toLowerCase s = toLowerCase x then matchPattern pat xs else none
  | .param name :: pat, x :: xs =>
    if x = "" then none
    else
      match matchPattern pat xs with
      | some params => some ((name, x) :: params)
      | none => none

/-- The mount `app.use('/hotel-api', router)`: the path with the prefix stripped, when it
lies under the prefix. -/
def stripMount (segs : List String) : Option (List String) :=
  match segs with
  | first :: rest => if toLowerCase first = "hotel-api" then some rest else none
  | [] => none

/-- The first route of the stack whose method and path match, with `req.params`.  No
handler of the source calls `next`, so later routes are never tried. -/
def firstMatch (m : Method) (segs : List String) :
    List Route → Option (HandlerId × List (String × String))
  | [] => none
  | r :: rest =>
    if r.method = m then
      match matchPattern r.pattern segs with
      | some params => some (r.handler, params)
      | none => firstMatch m segs rest
    else firstMatch m segs rest

/-- The value `req.params.id` (the source reads it only on routes that declare `:id`). -/
def paramId (params : List (String × String)) : String :=
  (params.lookup "id").getD "undefined"

/-- Runs the named handler on the request. -/
def runHandler (lowerCase : String → String) (h : HandlerId)
    (params : List (String × String)) (req : Request) (now : Nat) (hotels : List Hotel) :
    Response × List Hotel :=
  match h with
  | .list => listHandler hotels
  | .getById => getByIdHandler (paramId params) hotels
  | .create => createHandler req.body now hotels
  | .update => updateHandler (paramId params) req.body hotels
  | .delete => deleteHandler (paramId params) hotels
  | .search => searchHandler lowerCase req.query hotels

/-- The route that handles a request, if any. -/
def route (req : Request) : Option (HandlerId × List (String × String)) :=
  match pathSegments req.path with
  | none => none
  | some segs =>
    match stripMount segs with
    | none => none
    | some sub => firstMatch req.method sub routes

/-- The application: the response to a request received at time `now` and the `hotels`
array afterwards.  A request that no route matches gets the framework's 404 page.
`lowerCase` is the case table of the runtime, used by the search handler only. -/
def handle (lowerCase : String → String) (req : Request) (now : Nat) (hotels : List Hotel) :
    Response × List Hotel :=
  match route req with
  | some (h, params) => runHandler lowerCase h params req now hotels
  | none => (⟨404, .unrouted⟩, hotels)

/-- The `hotels` array after a sequence of requests, each with its arrival time. -/
def run (lowerCase : String → String) (hotels : List Hotel) :
    List (Request × Nat) → List Hotel
  | [] => hotels
  | (req, now) :: rest => run lowerCase (handle lowerCase req now hotels).2 rest

/-- The states of the running service: what the seed array has become after some finite
sequence of requests. -/
def Reachable (lowerCase : String → String) (hotels : List Hotel) : Prop :=
  ∃ (t0 t1 : Nat) (reqs : List (Request × Nat)), hotels = run lowerCase (seed t0 t1) reqs

/-! ## Concrete requests used in the examples below -/

/-- A body with none of the seven fields. -/
def noBody : Payload :=
  ⟨.undefined, .undefined, .undefined, .undefined, .undefined, .undefined, .undefined⟩

/-- A query string with no parameter. -/
def noQuery : Query :=
  ⟨none, none, none⟩

/-- A valid create body: the four required fields and nothing else. -/
def samplePayload : Payload :=
  { name := .str "Grand Plaza"
    location := .str "Ankara"
    description := .undefined
    price := .num (.fin 200)
    amenities := .arr [.str "WiFi"]
    rating := .undefined
    available_rooms := .undefined }

/-- The request `DELETE /hotel-api/hotels/1`. -/
def deleteOne : Request :=
  ⟨.DELETE, "/hotel-api/hotels/1", noQuery, noBody⟩

/-- The request `POST /hotel-api/hotels` with `samplePayload` as its body. -/
def postSample : Request :=
  ⟨.POST, "/hotel-api/hotels", noQuery, samplePayload⟩

/-- The request `GET /hotel-api/hotels/search?min_price=120&max_price=160`. -/
def searchByPrice : Request :=
  ⟨.GET, "/hotel-api/hotels/search", ⟨none, some (.str "120"), some (.str "160")⟩, noBody⟩

/-- The request `GET /hotel-api/hotels/2`. -/
def getTwo : Request :=
  ⟨.GET, "/hotel-api/hotels/2", noQuery, noBody⟩

/-- The request `DELETE /hotel-api/hotels/2`. -/
def deleteTwo : Request :=
  ⟨.DELETE, "/hotel-api/hotels/2", noQuery, noBody⟩

/-- The record that `POST /hotel-api/hotels` with `samplePayload` creates at time 2 when
the array holds one record. -/
def grandPlaza : Hotel :=
  { id := 2
    name := .str "Grand Plaza"
    location := .str "Ankara"
    description := .str ""
    price := .num (.fin 200)
    amenities := .arr [.str "WiFi"]
    rating := .null
    available_rooms := .null
    created_at := 2 }

/-- A create body whose `amenities` is the empty array, the other required fields valid. -/
def emptyAmenitiesPayload : Payload :=
  { samplePayload with amenities := .arr [] }

/-- A create body that supplies `rating: 0` next to the four required fields. -/
def zeroRatingPayload : Payload :=
  { samplePayload with rating := .num (.fin 0) }

/-- An update body that supplies only `rating: 3`. -/
def ratingOnlyPayload : Payload :=
  { noBody with rating := .num (.fin 3) }

/-- An update body that supplies only `price: 0`. -/
def zeroPricePayload : Payload :=
  { noBody with price := .num (.fin 0) }

/-- The values that JavaScript treats as false, the absent field (`undefined`) among
them: `undefined`, `null`, `false`, `0`, `NaN` and the empty string. -/
def JsVal.absentOrFalsy (v : JsVal) : Prop :=
  v = .undefined ∨ v = .null ∨ v = .bool false ∨ v = .num (.fin 0) ∨ v = .num .nan ∨
    v = .str ""

/-- The request `GET /hotel-api/hotels`. -/
def listAll : Request :=
  ⟨.GET, "/hotel-api/hotels", noQuery, noBody⟩

/-- A create body whose `location` is the number 5, a truthy value that is no string. -/
def numericLocationPayload : Payload :=
  { samplePayload with location := .num (.fin 5) }

/-- The request `POST /hotel-api/hotels` with `numericLocationPayload` as its body. -/
def postNumericLocation : Request :=
  ⟨.POST, "/hotel-api/hotels", noQuery, numericLocationPayload⟩

/-- The query string `?location=istanbul`. -/
def istanbulQuery : Query :=
  ⟨some (.str "istanbul"), none, none⟩

/-! ## The search as the specification words it -/

/-- The location condition of the specification: the lower-cased stored location contains
the lower-cased `location` parameter; an omitted or empty parameter imposes no condition. -/
def locationOk (lowerCase : String → String) (location : Option QVal) (h : Hotel) : Bool :=
  match location with
  | some (.str wanted) =>
    wanted = "" ||
      (match h.location with
        | .str stored => includes (lowerCase stored) (lowerCase wanted)
        | _ => false)
  | _ => true

/-- The lower bound of the specification: the price is at least `min_price`, read as a
floating-point number; an omitted or empty parameter imposes no condition. -/
def minPriceOk (min_price : Option QVal) (h : Hotel) : Bool :=
  match min_price with
  | some (.str bound) => bound = "" || (parseFloat bound).le h.price.numberValue
  | _ => true

/-- The upper bound of the specification: the price is at most `max_price`, read as a
floating-point number; an omitted or empty parameter imposes no condition. -/
def maxPriceOk (max_price : Option QVal) (h : Hotel) : Bool :=
  match max_price with
  | some (.str bound) => bound = "" || h.price.numberValue.le (parseFloat bound)
  | _ => true

/-- The condition of the specification on one record: every supplied filter holds (the
filters are combined conjunctively). -/
def satisfiesFilters (lowerCase : String → String) (q : Query) (h : Hotel) : Bool :=
  locationOk lowerCase q.location h && minPriceOk q.min_price h && maxPriceOk q.max_price h

/-- The result of the specification: the records of the array that satisfy all supplied
filters, in array order. -/
def specSearch (lowerCase : String → String) (q : Query) (hotels : List Hotel) :
    List Hotel :=
  hotels.filter (satisfiesFilters lowerCase q)

/-- A query parameter as the specification has it: omitted, or a string. -/
def plainParam : Option QVal → Bool
  | none => true
  | some (.str _) => true
  | some _ => false

/-- A create body whose `price` is the object with the single entry `"toString": null`, a
truthy value. -/
def objectPricePayload : Payload :=
  { samplePayload with price := .obj [("toString", .null)] }

/-- The query string `?min_price=120`. -/
def minPriceQuery : Query :=
  ⟨none, some (.str "120"), none⟩

/-- The query string `?location=a&location=b`, which the query parser turns into an
array. -/
def repeatedLocationQuery : Query :=
  ⟨some (.arr [.str "a", .str "b"]), none, none⟩

/-- The request `POST /hotel-api/hotels` with `objectPricePayload` as its body. -/
def postObjectPrice : Request :=
  ⟨.POST, "/hotel-api/hotels", noQuery, objectPricePayload⟩

/-! ## Traces without a successful delete -/

/-- Whether the request, arriving when the array is `hotels`, is a delete that succeeds:
it is routed to the delete handler and answered 200. -/
def isSuccessfulDelete (lowerCase : String → String) (req : Request) (now : Nat)
    (hotels : List Hotel) : Bool :=
  match route req with
  | some (.delete, _) => (handle lowerCase req now hotels).1.status == 200
  | _ => false

/-- No request of the sequence, run from `hotels`, is a successful delete. -/
def noSuccessfulDelete (lowerCase : String → String) (hotels : List Hotel) :
    List (Request × Nat) → Bool
  | [] => true
  | (req, now) :: rest =>
    !isSuccessfulDelete lowerCase req now hotels &&
      noSuccessfulDelete lowerCase (handle lowerCase req now hotels).2 rest

/-! ## Lemmas on the by-id lookup -/

theorem idMatches_none (h : Hotel) : idMatches none h = false := by
  simp [idMatches]

theorem find?_idMatches_none (hotels : List Hotel) :
    hotels.find? (idMatches none) = none := by
  simp [List.find?_eq_none, idMatches_none]

theorem parseInt_search : parseInt "search" = none := by
  decide

/-- The search path is taken by the route `/hotels/:id`, which is earlier in the stack. -/
theorem route_search_path (q : Query) (b : Payload) :
    route ⟨.GET, "/hotel-api/hotels/search", q, b⟩ = some (.getById, [("id", "search")]) := by
  rfl

/-- Whatever the array, the query and the body, `GET /hotel-api/hotels/search` is answered
by the get-by-id handler with 404. -/
theorem handle_search_path (lowerCase : String → String) (q : Query) (b : Payload)
    (now : Nat) (hotels : List Hotel) :
    handle lowerCase ⟨.GET, "/hotel-api/hotels/search", q, b⟩ now hotels
      = (⟨404, .error "Hotel not found"⟩, hotels) := by
  have hp : paramId [("id", "search")] = "search" := by decide
  simp only [handle, route_search_path, runHandler, hp, getByIdHandler, parseInt_search,
    find?_idMatches_none]

/-! ## C1 -/

/-- C1 (fails on the code): after `DELETE /hotel-api/hotels/1` and a valid
`POST /hotel-api/hotels` on the seed array, the array holds two records and both have
id 2, so the held ids are not pairwise distinct. -/
theorem C1_ids_collide_after_delete_then_create (lowerCase : String → String) :
    (run lowerCase (seed 0 0) [(deleteOne, 1), (postSample, 2)]).map Hotel.id = [2, 2] ∧
      ¬ ((run lowerCase (seed 0 0) [(deleteOne, 1), (postSample, 2)]).map Hotel.id).Nodup := by
  have h : (run lowerCase (seed 0 0) [(deleteOne, 1), (postSample, 2)]).map Hotel.id
      = [2, 2] := rfl
  rw [h]
  decide

/-! ## C2 -/

/-- C2 (fails on the code): on the seed array the request
`GET /hotel-api/hotels/search?min_price=120&max_price=160` is routed to the get-by-id
handler with `id = "search"` and is answered 404 "Hotel not found", although the search
handler, had it been reached, would have answered 200 with the one record of id 2. -/
theorem C2_search_route_is_shadowed (lowerCase : String → String) :
    route searchByPrice = some (.getById, [("id", "search")]) ∧
      handle lowerCase searchByPrice 1 (seed 0 0)
        = (⟨404, .error "Hotel not found"⟩, seed 0 0) ∧
      (searchHandler lowerCase searchByPrice.query (seed 0 0)).1.status = 200 ∧
      (searchResult lowerCase searchByPrice.query (seed 0 0)).map (List.map Hotel.id)
        = some [2] := by
  have hres : searchResult lowerCase searchByPrice.query (seed 0 0)
      = searchResult toLowerCase searchByPrice.query (seed 0 0) := rfl
  refine ⟨rfl, handle_search_path _ _ _ _ _, ?_, ?_⟩
  · simp only [searchHandler, hres]
    decide!
  · rw [hres]
    decide!

/-! ## Lemmas on truthiness -/

theorem toBoolean_eq_false_iff (v : JsVal) : v.toBoolean = false ↔ v.absentOrFalsy := by
  unfold JsVal.absentOrFalsy
  cases v with
  | undefined => simp [JsVal.toBoolean]
  | null => simp [JsVal.toBoolean]
  | bool b => cases b <;> simp [JsVal.toBoolean]
  | num x => cases x <;> simp [JsVal.toBoolean]
  | str s => simp [JsVal.toBoolean]
  | arr xs => simp [JsVal.toBoolean]
  | obj kvs => simp [JsVal.toBoolean]

theorem missingRequired_eq_true_iff (p : Payload) :
    missingRequired p = true ↔
      (p.name.absentOrFalsy ∨ p.location.absentOrFalsy ∨ p.price.absentOrFalsy ∨
        p.amenities.absentOrFalsy) := by
  simp only [← toBoolean_eq_false_iff, missingRequired, Bool.or_eq_true, Bool.not_eq_true',
    or_assoc]

theorem missingRequired_eq_false_iff (p : Payload) :
    missingRequired p = false ↔
      (p.name.toBoolean = true ∧ p.location.toBoolean = true ∧ p.price.toBoolean = true ∧
        p.amenities.toBoolean = true) := by
  simp only [missingRequired, Bool.or_eq_false_iff, Bool.not_eq_false', and_assoc]

/-! ## Lemmas on the first matching element -/

theorem exists_first_split (test : Hotel → Bool) (l : List Hotel)
    (h : ∃ x ∈ l, test x = true) :
    ∃ pre r post, l = pre ++ r :: post ∧ (∀ x ∈ pre, test x = false) ∧ test r = true := by
  induction l with
  | nil => simp at h
  | cons a t ih =>
    by_cases ha : test a = true
    · exact ⟨[], a, t, rfl, by simp, ha⟩
    · have ht : ∃ x ∈ t, test x = true := by
        obtain ⟨x, hx, hxt⟩ := h
        rcases List.mem_cons.mp hx with rfl | hx
        · exact absurd hxt ha
        · exact ⟨x, hx, hxt⟩
      obtain ⟨pre, r, post, hl, hpre, hr⟩ := ih ht
      refine ⟨a :: pre, r, post, by simp [hl], ?_, hr⟩
      intro x hx
      rcases List.mem_cons.mp hx with rfl | hx
      · simpa using ha
      · exact hpre x hx

theorem find?_split (test : Hotel → Bool) (pre : List Hotel) (r : Hotel) (post : List Hotel)
    (hpre : ∀ x ∈ pre, test x = false) (hr : test r = true) :
    (pre ++ r :: post).find? test = some r := by
  induction pre with
  | nil => simp [hr]
  | cons a t ih =>
    have ha : test a = false := hpre a (List.mem_cons_self a t)
    have ht : ∀ x ∈ t, test x = false := fun x hx => hpre x (List.mem_cons_of_mem a hx)
    simp [List.find?_cons, ha, ih ht]

theorem findIdx?_split (test : Hotel → Bool) (pre : List Hotel) (r : Hotel)
    (post : List Hotel) (hpre : ∀ x ∈ pre, test x = false) (hr : test r = true) :
    (pre ++ r :: post).findIdx? test = some pre.length := by
  induction pre with
  | nil => simp [hr]
  | cons a t ih =>
    have ha : test a = false := hpre a (List.mem_cons_self a t)
    have ht : ∀ x ∈ t, test x = false := fun x hx => hpre x (List.mem_cons_of_mem a hx)
    simp [List.findIdx?_cons, ha, ih ht]

theorem mutateFirst_split (test : Hotel → Bool) (f : Hotel → Hotel) (pre : List Hotel)
    (r : Hotel) (post : List Hotel) (hpre : ∀ x ∈ pre, test x = false)
    (hr : test r = true) :
    mutateFirst test f (pre ++ r :: post) = pre ++ f r :: post := by
  induction pre with
  | nil => simp [mutateFirst, hr]
  | cons a t ih =>
    have ha : test a = false := hpre a (List.mem_cons_self a t)
    have ht : ∀ x ∈ t, test x = false := fun x hx => hpre x (List.mem_cons_of_mem a hx)
    simp [mutateFirst, ha, ih ht]

theorem splice1_split (pre : List Hotel) (r : Hotel) (post : List Hotel) :
    splice1 pre.length (pre ++ r :: post) = ([r], pre ++ post) := by
  simp [splice1, List.take_append_eq_append_take, List.drop_append_eq_append_drop]

theorem exists_idMatches_of_mem (id : Option Int) (hotels : List Hotel)
    (h : ∃ x ∈ hotels, id = some (x.id : Int)) :
    ∃ x ∈ hotels, idMatches id x = true := by
  obtain ⟨x, hx, hid⟩ := h
  exact ⟨x, hx, by simp [idMatches, hid]⟩

/-! ## Lemmas on the conditional assignments of the update handler -/

theorem applyUpdate_eq (p : Payload) (h : Hotel) :
    applyUpdate p h =
      { id := h.id
        name := if p.name.toBoolean then p.name else h.name
        location := if p.location.toBoolean then p.location else h.location
        description := if p.description.toBoolean then p.description else h.description
        price := if p.price.toBoolean then p.price else h.price
        amenities := if p.amenities.toBoolean then p.amenities else h.amenities
        rating := if p.rating.toBoolean then p.rating else h.rating
        available_rooms :=
          if p.available_rooms.toBoolean then p.available_rooms else h.available_rooms
        created_at := h.created_at } := by
  unfold applyUpdate
  cases p.name.toBoolean <;> cases p.location.toBoolean <;> cases p.description.toBoolean <;>
    cases p.price.toBoolean <;> cases p.amenities.toBoolean <;> cases p.rating.toBoolean <;>
    cases p.available_rooms.toBoolean <;> rfl

theorem applyUpdate_id (p : Payload) (h : Hotel) : (applyUpdate p h).id = h.id := by
  rw [applyUpdate_eq]

theorem idMatches_applyUpdate (id : Option Int) (p : Payload) (h : Hotel) :
    idMatches id (applyUpdate p h) = idMatches id h := by
  simp [idMatches, applyUpdate_id]

/-- On an array split at its first matching record, the update handler answers 200 with
the updated record and replaces that record in place. -/
theorem updateHandler_split (idParam : String) (p : Payload) (pre : List Hotel) (old : Hotel)
    (post : List Hotel) (hpre : ∀ x ∈ pre, idMatches (parseInt idParam) x = false)
    (hold : idMatches (parseInt idParam) old = true) :
    updateHandler idParam p (pre ++ old :: post)
      = (⟨200, .record (applyUpdate p old)⟩, pre ++ applyUpdate p old :: post) := by
  simp only [updateHandler, find?_split _ pre old post hpre hold,
    mutateFirst_split _ _ pre old post hpre hold]

/-- On an array split at its first matching record, the delete handler answers 200 with
that record and removes it. -/
theorem deleteHandler_split (idParam : String) (pre : List Hotel) (r : Hotel)
    (post : List Hotel) (hpre : ∀ x ∈ pre, idMatches (parseInt idParam) x = false)
    (hr : idMatches (parseInt idParam) r = true) :
    deleteHandler idParam (pre ++ r :: post) = (⟨200, .record r⟩, pre ++ post) := by
  simp only [deleteHandler, findIdx?_split _ pre r post hpre hr, splice1_split,
    List.head?_cons]

/-- On an array split at its first matching record, get-by-id answers 200 with it. -/
theorem getByIdHandler_split (idParam : String) (pre : List Hotel) (r : Hotel)
    (post : List Hotel) (hpre : ∀ x ∈ pre, idMatches (parseInt idParam) x = false)
    (hr : idMatches (parseInt idParam) r = true) :
    getByIdHandler idParam (pre ++ r :: post) = (⟨200, .record r⟩, pre ++ r :: post) := by
  simp only [getByIdHandler, find?_split _ pre r post hpre hr]

/-! ## C3 -/

/-- C3 (fails on the code): in the state reached from the seed array by
`DELETE /hotel-api/hotels/1`, the valid `POST /hotel-api/hotels` answers 201 with the new
record "Grand Plaza" of id 2, and the immediately following `GET /hotel-api/hotels/2`
answers 200 with the older record "Seaside Resort", not with the record just created. -/
theorem C3_get_after_create_returns_older_record (lowerCase : String → String) :
    run lowerCase (seed 0 0) [(deleteOne, 1)] = [seasideResort 0] ∧
      handle lowerCase postSample 2 [seasideResort 0]
        = (⟨201, .record grandPlaza⟩, [seasideResort 0, grandPlaza]) ∧
      grandPlaza.id = 2 ∧
      handle lowerCase getTwo 3 [seasideResort 0, grandPlaza]
        = (⟨200, .record (seasideResort 0)⟩, [seasideResort 0, grandPlaza]) ∧
      seasideResort 0 ≠ grandPlaza := by
  refine ⟨rfl, rfl, rfl, rfl, ?_⟩
  intro h
  have hc : (seasideResort 0).created_at = grandPlaza.created_at := congrArg Hotel.created_at h
  revert hc
  decide

/-! ## C4 -/

/-- C4: the create handler answers 400 with the fixed error body and leaves the array as
it is when one of `name`, `location`, `price`, `amenities` is absent or falsy; otherwise
it answers 201 with a record that is appended at the end of the array, the earlier records
staying as they are and in the same order. -/
theorem C4_create_rejects_or_appends (p : Payload) (now : Nat) (hotels : List Hotel) :
    ((p.name.absentOrFalsy ∨ p.location.absentOrFalsy ∨ p.price.absentOrFalsy ∨
        p.amenities.absentOrFalsy) →
      createHandler p now hotels
        = (⟨400, .error "Missing required fields: name, location, price, amenities"⟩,
            hotels)) ∧
    (¬ (p.name.absentOrFalsy ∨ p.location.absentOrFalsy ∨ p.price.absentOrFalsy ∨
        p.amenities.absentOrFalsy) →
      ∃ r, createHandler p now hotels = (⟨201, .record r⟩, hotels ++ [r]) ∧
        (createHandler p now hotels).2.length = hotels.length + 1 ∧
        (createHandler p now hotels).2.take hotels.length = hotels) := by
  constructor
  · intro h
    have hm : missingRequired p = true := (missingRequired_eq_true_iff p).mpr h
    simp [createHandler, hm]
  · intro h
    have hm : missingRequired p = false := by
      rw [← Bool.not_eq_true, missingRequired_eq_true_iff]
      exact h
    refine ⟨newHotel p now hotels, ?_, ?_, ?_⟩ <;> simp [createHandler, hm]

/-- C4, at concrete inputs: a body without fields is refused on the seed array, and
`samplePayload` is accepted and appended. -/
theorem C4_create_rejects_or_appends_witness :
    createHandler noBody 3 (seed 0 0)
        = (⟨400, .error "Missing required fields: name, location, price, amenities"⟩,
            seed 0 0) ∧
      ∃ r, createHandler samplePayload 3 (seed 0 0) = (⟨201, .record r⟩, seed 0 0 ++ [r]) ∧
        (createHandler samplePayload 3 (seed 0 0)).2.length = (seed 0 0).length + 1 ∧
        (createHandler samplePayload 3 (seed 0 0)).2.take (seed 0 0).length = seed 0 0 :=
  ⟨(C4_create_rejects_or_appends noBody 3 (seed 0 0)).1 (Or.inl (Or.inl rfl)),
    (C4_create_rejects_or_appends samplePayload 3 (seed 0 0)).2 (by
      simp [← toBoolean_eq_false_iff, samplePayload, JsVal.toBoolean])⟩

/-! ## C5 -/

/-- C5 (as stated, fails): a create body whose `amenities` is the empty array and whose
other required fields are valid is not refused: on the seed array the handler answers 201
and the array grows to three records. -/
theorem C5_empty_amenities_is_accepted :
    emptyAmenitiesPayload.amenities = .arr [] ∧
      (createHandler emptyAmenitiesPayload 3 (seed 0 0)).1.status = 201 ∧
      (createHandler emptyAmenitiesPayload 3 (seed 0 0)).2.length = 3 ∧
      ¬ ((createHandler emptyAmenitiesPayload 3 (seed 0 0)).1.status = 400 ∧
          (createHandler emptyAmenitiesPayload 3 (seed 0 0)).2.length = (seed 0 0).length) := by
  refine ⟨rfl, ?_, ?_, ?_⟩ <;> decide

/-- C5 (amended): for every array and every create body in which `name` is the empty
string, or `location` is the empty string, or `price` is 0, the create handler answers 400
and leaves the array as it is. -/
theorem C5_create_rejects_empty_string_and_zero (p : Payload) (now : Nat)
    (hotels : List Hotel)
    (h : p.name = .str "" ∨ p.location = .str "" ∨ p.price = .num (.fin 0)) :
    (createHandler p now hotels).1.status = 400 ∧ (createHandler p now hotels).2 = hotels := by
  have hm : missingRequired p = true := by
    rcases h with h | h | h <;> simp [missingRequired, h, JsVal.toBoolean]
  simp [createHandler, hm]

/-- C5 (amended), at a concrete input: `price: 0` on the seed array. -/
theorem C5_create_rejects_empty_string_and_zero_witness :
    (createHandler zeroPricePayload 3 (seed 0 0)).1.status = 400 ∧
      (createHandler zeroPricePayload 3 (seed 0 0)).2 = seed 0 0 :=
  C5_create_rejects_empty_string_and_zero zeroPricePayload 3 (seed 0 0)
    (Or.inr (Or.inr rfl))

/-! ## C6 -/

/-- C6 (as stated, fails): a valid create body that supplies `rating: 0` is accepted on
the seed array, and the record returned and stored has `rating` null, not the supplied 0. -/
theorem C6_supplied_zero_rating_is_stored_as_null :
    zeroRatingPayload.rating = .num (.fin 0) ∧
      createHandler zeroRatingPayload 3 (seed 0 0)
        = (⟨201, .record (newHotel zeroRatingPayload 3 (seed 0 0))⟩,
            seed 0 0 ++ [newHotel zeroRatingPayload 3 (seed 0 0)]) ∧
      (newHotel zeroRatingPayload 3 (seed 0 0)).rating = .null ∧
      (newHotel zeroRatingPayload 3 (seed 0 0)).rating ≠ zeroRatingPayload.rating := by
  refine ⟨rfl, rfl, rfl, ?_⟩
  intro h
  cases h

/-- C6 (amended): for every array and every valid create body, the handler answers 201
with a record that it appends to the array; the record has `id = length + 1`, the `name`,
`location`, `price` and `amenities` of the body, `description` equal to the body's when
that is truthy and the empty string otherwise (so also when absent), `rating` and
`available_rooms` equal to the body's when truthy and null otherwise (so also when
absent), and `created_at` equal to the time of the request. -/
theorem C6_created_record_fields (p : Payload) (now : Nat) (hotels : List Hotel)
    (hvalid : p.name.toBoolean = true ∧ p.location.toBoolean = true ∧
      p.price.toBoolean = true ∧ p.amenities.toBoolean = true) :
    ∃ r, createHandler p now hotels = (⟨201, .record r⟩, hotels ++ [r]) ∧
      r.id = hotels.length + 1 ∧
      r.name = p.name ∧ r.location = p.location ∧ r.price = p.price ∧
      r.amenities = p.amenities ∧
      r.description = (if p.description.toBoolean then p.description else .str "") ∧
      r.rating = (if p.rating.toBoolean then p.rating else .null) ∧
      r.available_rooms = (if p.available_rooms.toBoolean then p.available_rooms else .null) ∧
      (p.description = .undefined → r.description = .str "") ∧
      (p.rating = .undefined → r.rating = .null) ∧
      (p.available_rooms = .undefined → r.available_rooms = .null) ∧
      r.created_at = now := by
  have hm : missingRequired p = false := (missingRequired_eq_false_iff p).mpr hvalid
  refine ⟨newHotel p now hotels, by simp [createHandler, hm], rfl, rfl, rfl, rfl, rfl, rfl,
    rfl, rfl, ?_, ?_, ?_, rfl⟩
  · intro h
    simp [newHotel, JsVal.or, h, JsVal.toBoolean]
  · intro h
    simp [newHotel, JsVal.or, h, JsVal.toBoolean]
  · intro h
    simp [newHotel, JsVal.or, h, JsVal.toBoolean]

/-- C6 (amended), at a concrete input: `samplePayload` on the seed array at time 3. -/
theorem C6_created_record_fields_witness :
    ∃ r, createHandler samplePayload 3 (seed 0 0) = (⟨201, .record r⟩, seed 0 0 ++ [r]) ∧
      r.id = (seed 0 0).length + 1 ∧
      r.name = samplePayload.name ∧ r.location = samplePayload.location ∧
      r.price = samplePayload.price ∧ r.amenities = samplePayload.amenities ∧
      r.description
        = (if samplePayload.description.toBoolean then samplePayload.description
            else .str "") ∧
      r.rating = (if samplePayload.rating.toBoolean then samplePayload.rating else .null) ∧
      r.available_rooms
        = (if samplePayload.available_rooms.toBoolean then samplePayload.available_rooms
            else .null) ∧
      (samplePayload.description = .undefined → r.description = .str "") ∧
      (samplePayload.rating = .undefined → r.rating = .null) ∧
      (samplePayload.available_rooms = .undefined → r.available_rooms = .null) ∧
      r.created_at = 3 :=
  C6_created_record_fields samplePayload 3 (seed 0 0) (by decide)

/-! ## C7 -/

/-- C7: when some held record has the requested id, the update handler answers 200 with a
record in which each of `name`, `location`, `description`, `price`, `amenities`, `rating`,
`available_rooms` is the body's value when that is truthy and otherwise the value stored
in the first record with that id; in particular `price: 0` leaves `price` and `rating: 0`
leaves `rating` as stored. -/
theorem C7_update_overwrites_truthy_fields_only (idParam : String) (p : Payload)
    (hotels : List Hotel) (hheld : ∃ x ∈ hotels, parseInt idParam = some (x.id : Int)) :
    ∃ old r, hotels.find? (idMatches (parseInt idParam)) = some old ∧
      (updateHandler idParam p hotels).1 = ⟨200, .record r⟩ ∧
      r.name = (if p.name.toBoolean then p.name else old.name) ∧
      r.location = (if p.location.toBoolean then p.location else old.location) ∧
      r.description = (if p.description.toBoolean then p.description else old.description) ∧
      r.price = (if p.price.toBoolean then p.price else old.price) ∧
      r.amenities = (if p.amenities.toBoolean then p.amenities else old.amenities) ∧
      r.rating = (if p.rating.toBoolean then p.rating else old.rating) ∧
      r.available_rooms
        = (if p.available_rooms.toBoolean then p.available_rooms else old.available_rooms) ∧
      (p.price = .num (.fin 0) → r.price = old.price) ∧
      (p.rating = .num (.fin 0) → r.rating = old.rating) := by
  obtain ⟨pre, old, post, hl, hpre, hold⟩ :=
    exists_first_split _ hotels (exists_idMatches_of_mem _ hotels hheld)
  subst hl
  refine ⟨old, applyUpdate p old, find?_split _ pre old post hpre hold, ?_, ?_⟩
  · rw [updateHandler_split idParam p pre old post hpre hold]
  · rw [applyUpdate_eq]
    refine ⟨rfl, rfl, rfl, rfl, rfl, rfl, rfl, ?_, ?_⟩
    · intro h
      simp [h, JsVal.toBoolean]
    · intro h
      simp [h, JsVal.toBoolean]

/-- C7, at a concrete input: `PUT /hotels/2` with `price: 0` on the seed array. -/
theorem C7_update_overwrites_truthy_fields_only_witness :
    ∃ old r, (seed 0 0).find? (idMatches (parseInt "2")) = some old ∧
      (updateHandler "2" zeroPricePayload (seed 0 0)).1 = ⟨200, .record r⟩ ∧
      r.name = (if zeroPricePayload.name.toBoolean then zeroPricePayload.name else old.name) ∧
      r.location
        = (if zeroPricePayload.location.toBoolean then zeroPricePayload.location
            else old.location) ∧
      r.description
        = (if zeroPricePayload.description.toBoolean then zeroPricePayload.description
            else old.description) ∧
      r.price
        = (if zeroPricePayload.price.toBoolean then zeroPricePayload.price else old.price) ∧
      r.amenities
        = (if zeroPricePayload.amenities.toBoolean then zeroPricePayload.amenities
            else old.amenities) ∧
      r.rating
        = (if zeroPricePayload.rating.toBoolean then zeroPricePayload.rating
            else old.rating) ∧
      r.available_rooms
        = (if zeroPricePayload.available_rooms.toBoolean then zeroPricePayload.available_rooms
            else old.available_rooms) ∧
      (zeroPricePayload.price = .num (.fin 0) → r.price = old.price) ∧
      (zeroPricePayload.rating = .num (.fin 0) → r.rating = old.rating) :=
  C7_update_overwrites_truthy_fields_only "2" zeroPricePayload (seed 0 0)
    ⟨seasideResort 0, by simp [seed], by decide⟩

/-! ## C8 -/

/-- C8: a successful update keeps the array's length and order: the array is split at the
first record `old` with the requested id, and afterwards it is the same array with `old`
replaced by the returned record `r`, every other record as it was; `r` keeps the `id` and
`created_at` of `old`, and a following get-by-id answers 200 with `r`.  When the body
supplies only a truthy `rating`, `r` is `old` with `rating` replaced and nothing else
changed. -/
theorem C8_update_frame (idParam : String) (p : Payload) (hotels : List Hotel)
    (hheld : ∃ x ∈ hotels, parseInt idParam = some (x.id : Int)) :
    ∃ pre old post r, hotels = pre ++ old :: post ∧
      (∀ x ∈ pre, idMatches (parseInt idParam) x = false) ∧
      idMatches (parseInt idParam) old = true ∧
      updateHandler idParam p hotels = (⟨200, .record r⟩, pre ++ r :: post) ∧
      (updateHandler idParam p hotels).2.length = hotels.length ∧
      r.id = old.id ∧ r.created_at = old.created_at ∧
      getByIdHandler idParam (updateHandler idParam p hotels).2
        = (⟨200, .record r⟩, (updateHandler idParam p hotels).2) ∧
      ((p.name = .undefined ∧ p.location = .undefined ∧ p.description = .undefined ∧
          p.price = .undefined ∧ p.amenities = .undefined ∧
          p.available_rooms = .undefined ∧ p.rating.toBoolean = true) →
        r = { old with rating := p.rating }) := by
  obtain ⟨pre, old, post, hl, hpre, hold⟩ :=
    exists_first_split _ hotels (exists_idMatches_of_mem _ hotels hheld)
  subst hl
  have hnew : idMatches (parseInt idParam) (applyUpdate p old) = true := by
    rw [idMatches_applyUpdate]
    exact hold
  have hupd := updateHandler_split idParam p pre old post hpre hold
  refine ⟨pre, old, post, applyUpdate p old, rfl, hpre, hold, hupd, ?_, ?_, ?_, ?_, ?_⟩
  · simp [hupd]
  · rw [applyUpdate_eq]
  · rw [applyUpdate_eq]
  · rw [hupd]
    exact getByIdHandler_split idParam pre (applyUpdate p old) post hpre hnew
  · rintro ⟨h1, h2, h3, h4, h5, h6, h7⟩
    have hu : JsVal.undefined.toBoolean = false := rfl
    rw [applyUpdate_eq]
    simp [h1, h2, h3, h4, h5, h6, h7, hu]

/-- C8, at a concrete input: `PUT /hotels/1` with only `rating: 3` on the seed array. -/
theorem C8_update_frame_witness :
    ∃ pre old post r, seed 0 0 = pre ++ old :: post ∧
      (∀ x ∈ pre, idMatches (parseInt "1") x = false) ∧
      idMatches (parseInt "1") old = true ∧
      updateHandler "1" ratingOnlyPayload (seed 0 0) = (⟨200, .record r⟩, pre ++ r :: post) ∧
      (updateHandler "1" ratingOnlyPayload (seed 0 0)).2.length = (seed 0 0).length ∧
      r.id = old.id ∧ r.created_at = old.created_at ∧
      getByIdHandler "1" (updateHandler "1" ratingOnlyPayload (seed 0 0)).2
        = (⟨200, .record r⟩, (updateHandler "1" ratingOnlyPayload (seed 0 0)).2) ∧
      ((ratingOnlyPayload.name = .undefined ∧ ratingOnlyPayload.location = .undefined ∧
          ratingOnlyPayload.description = .undefined ∧
          ratingOnlyPayload.price = .undefined ∧ ratingOnlyPayload.amenities = .undefined ∧
          ratingOnlyPayload.available_rooms = .undefined ∧
          ratingOnlyPayload.rating.toBoolean = true) →
        r = { old with rating := ratingOnlyPayload.rating }) :=
  C8_update_frame "1" ratingOnlyPayload (seed 0 0)
    ⟨hotelSunshine 0, by simp [seed], by decide⟩

/-! ## C9 -/

/-- C9: when some held record has the requested id, the delete handler answers 200 with
the first record `r` of the array that has that id, and the array afterwards is the array
with that one occurrence removed: one record shorter, the other records as they were and
in the same relative order. -/
theorem C9_delete_removes_first_match (idParam : String) (hotels : List Hotel)
    (hheld : ∃ x ∈ hotels, parseInt idParam = some (x.id : Int)) :
    ∃ pre r post, hotels = pre ++ r :: post ∧
      (∀ x ∈ pre, parseInt idParam ≠ some (x.id : Int)) ∧
      parseInt idParam = some (r.id : Int) ∧
      deleteHandler idParam hotels = (⟨200, .record r⟩, pre ++ post) ∧
      (deleteHandler idParam hotels).2.length = hotels.length - 1 := by
  obtain ⟨pre, r, post, hl, hpre, hr⟩ :=
    exists_first_split _ hotels (exists_idMatches_of_mem _ hotels hheld)
  subst hl
  have hdel := deleteHandler_split idParam pre r post hpre hr
  refine ⟨pre, r, post, rfl, ?_, ?_, hdel, ?_⟩
  · intro x hx
    simpa [idMatches] using hpre x hx
  · simpa [idMatches] using hr
  · simp [hdel]

/-- C9, at a concrete input: `DELETE /hotels/2` on the seed array. -/
theorem C9_delete_removes_first_match_witness :
    ∃ pre r post, seed 0 0 = pre ++ r :: post ∧
      (∀ x ∈ pre, parseInt "2" ≠ some (x.id : Int)) ∧
      parseInt "2" = some (r.id : Int) ∧
      deleteHandler "2" (seed 0 0) = (⟨200, .record r⟩, pre ++ post) ∧
      (deleteHandler "2" (seed 0 0)).2.length = (seed 0 0).length - 1 :=
  C9_delete_removes_first_match "2" (seed 0 0) ⟨seasideResort 0, by simp [seed], by decide⟩

/-! ## C10 -/

/-- C10 (fails on the code): in the state reached from the seed array by
`DELETE /hotel-api/hotels/1` and a valid `POST /hotel-api/hotels`, two records have id 2;
`DELETE /hotel-api/hotels/2` answers 200 and removes the first of them, and the
immediately following `GET /hotel-api/hotels/2` answers 200 with the other one, not 404. -/
theorem C10_get_after_delete_still_answers_200 (lowerCase : String → String) :
    run lowerCase (seed 0 0) [(deleteOne, 1), (postSample, 2)]
        = [seasideResort 0, grandPlaza] ∧
      handle lowerCase deleteTwo 3 [seasideResort 0, grandPlaza]
        = (⟨200, .record (seasideResort 0)⟩, [grandPlaza]) ∧
      handle lowerCase getTwo 4 [grandPlaza] = (⟨200, .record grandPlaza⟩, [grandPlaza]) ∧
      (handle lowerCase getTwo 4 [grandPlaza]).1.status ≠ 404 := by
  have h : (handle lowerCase getTwo 4 [grandPlaza]).1.status = 200 := rfl
  refine ⟨rfl, rfl, rfl, ?_⟩
  rw [h]
  decide

/-! ## C11 -/

theorem idMatches_eq_false_of_not_held (id : Option Int) (hotels : List Hotel)
    (h : ∀ x ∈ hotels, id ≠ some (x.id : Int)) :
    ∀ x ∈ hotels, idMatches id x = false := by
  intro x hx
  simpa [idMatches] using h x hx

/-- C11: when the parsed id (an integer of either sign, or `NaN` from a non-numeric
segment) is the id of no held record, get-by-id, update with any body and delete each
answer 404 with the body "Hotel not found" and leave the array as it is; and when some
held record has the parsed id, each of the three answers 200. -/
theorem C11_by_id_404_iff_not_held (idParam : String) (p : Payload) (hotels : List Hotel) :
    ((∀ x ∈ hotels, parseInt idParam ≠ some (x.id : Int)) →
      getByIdHandler idParam hotels = (⟨404, .error "Hotel not found"⟩, hotels) ∧
      updateHandler idParam p hotels = (⟨404, .error "Hotel not found"⟩, hotels) ∧
      deleteHandler idParam hotels = (⟨404, .error "Hotel not found"⟩, hotels)) ∧
    ((∃ x ∈ hotels, parseInt idParam = some (x.id : Int)) →
      (getByIdHandler idParam hotels).1.status = 200 ∧
      (updateHandler idParam p hotels).1.status = 200 ∧
      (deleteHandler idParam hotels).1.status = 200) := by
  constructor
  · intro h
    have hno := idMatches_eq_false_of_not_held _ hotels h
    have hfind : hotels.find? (idMatches (parseInt idParam)) = none :=
      List.find?_eq_none.mpr (fun x hx => by simp [hno x hx])
    have hidx : hotels.findIdx? (idMatches (parseInt idParam)) = none :=
      List.findIdx?_eq_none_iff.mpr hno
    simp only [getByIdHandler, updateHandler, deleteHandler, hfind, hidx, and_self]
  · intro h
    obtain ⟨pre, r, post, hl, hpre, hr⟩ :=
      exists_first_split _ hotels (exists_idMatches_of_mem _ hotels h)
    subst hl
    rw [getByIdHandler_split idParam pre r post hpre hr,
      updateHandler_split idParam p pre r post hpre hr,
      deleteHandler_split idParam pre r post hpre hr]
    exact ⟨rfl, rfl, rfl⟩

/-- C11, at concrete inputs: the segments `-1` and `abc` on the seed array are answered
404, the segment `2` is answered 200. -/
theorem C11_by_id_404_iff_not_held_witness :
    parseInt "-1" = some (-1) ∧ parseInt "abc" = none ∧
      (getByIdHandler "-1" (seed 0 0) = (⟨404, .error "Hotel not found"⟩, seed 0 0) ∧
        updateHandler "-1" samplePayload (seed 0 0)
          = (⟨404, .error "Hotel not found"⟩, seed 0 0) ∧
        deleteHandler "-1" (seed 0 0) = (⟨404, .error "Hotel not found"⟩, seed 0 0)) ∧
      (getByIdHandler "abc" (seed 0 0) = (⟨404, .error "Hotel not found"⟩, seed 0 0) ∧
        updateHandler "abc" samplePayload (seed 0 0)
          = (⟨404, .error "Hotel not found"⟩, seed 0 0) ∧
        deleteHandler "abc" (seed 0 0) = (⟨404, .error "Hotel not found"⟩, seed 0 0)) ∧
      ((getByIdHandler "2" (seed 0 0)).1.status = 200 ∧
        (updateHandler "2" samplePayload (seed 0 0)).1.status = 200 ∧
        (deleteHandler "2" (seed 0 0)).1.status = 200) :=
  ⟨by decide, by decide,
    (C11_by_id_404_iff_not_held "-1" samplePayload (seed 0 0)).1 (by decide),
    (C11_by_id_404_iff_not_held "abc" samplePayload (seed 0 0)).1 (by decide),
    (C11_by_id_404_iff_not_held "2" samplePayload (seed 0 0)).2
      ⟨seasideResort 0, by simp [seed], by decide⟩⟩

/-! ## Lemmas on the sort of the list handler -/

theorem sortByCreatedAtDesc_sorted (hotels : List Hotel) :
    (sortByCreatedAtDesc hotels).Sorted (fun a b => b.created_at ≤ a.created_at) := by
  haveI : IsTotal Hotel (fun a b => b.created_at ≤ a.created_at) :=
    ⟨fun a b => Nat.le_total b.created_at a.created_at⟩
  haveI : IsTrans Hotel (fun a b => b.created_at ≤ a.created_at) :=
    ⟨fun _ _ _ hab hbc => Nat.le_trans hbc hab⟩
  exact List.sorted_insertionSort _ hotels

theorem sortByCreatedAtDesc_perm (hotels : List Hotel) :
    (sortByCreatedAtDesc hotels).Perm hotels :=
  List.perm_insertionSort _ hotels

theorem sortByCreatedAtDesc_idem (hotels : List Hotel) :
    sortByCreatedAtDesc (sortByCreatedAtDesc hotels) = sortByCreatedAtDesc hotels :=
  (sortByCreatedAtDesc_sorted hotels).insertionSort_eq

/-! ## C12 -/

/-- C12: the array returned by list is ordered by `created_at` descending: at any two
positions `i < j` of the result the record at `i` was created no earlier than the record
at `j`; hence a record created strictly before another one stands after it. -/
theorem C12_list_sorted_desc (hotels : List Hotel) :
    ∃ result, (listHandler hotels).1 = ⟨200, .records result⟩ ∧
      (∀ (i j : Nat) (a b : Hotel), i < j → result[i]? = some a → result[j]? = some b →
        b.created_at ≤ a.created_at) ∧
      (∀ (i j : Nat) (a b : Hotel), result[i]? = some a → result[j]? = some b →
        a.created_at < b.created_at → j < i) := by
  have hs := sortByCreatedAtDesc_sorted hotels
  have key : ∀ (i j : Nat) (a b : Hotel), i < j →
      (sortByCreatedAtDesc hotels)[i]? = some a → (sortByCreatedAtDesc hotels)[j]? = some b →
      b.created_at ≤ a.created_at := by
    intro i j a b hij ha hb
    obtain ⟨hi, rfl⟩ := List.getElem?_eq_some_iff.mp ha
    obtain ⟨hj, rfl⟩ := List.getElem?_eq_some_iff.mp hb
    exact List.pairwise_iff_getElem.mp hs i j hi hj hij
  refine ⟨sortByCreatedAtDesc hotels, rfl, key, ?_⟩
  intro i j a b ha hb hlt
  rcases Nat.lt_trichotomy i j with hij | hij | hij
  · exact absurd (key i j a b hij ha hb) (Nat.not_le.mpr hlt)
  · subst hij
    rw [ha] at hb
    cases hb
    exact absurd hlt (Nat.lt_irrefl _)
  · exact hij

/-! ## C15 -/

/-- C15: the array returned by list is a permutation of the array held before the
request, so it has the same length; the array held after the request is the returned one;
and a second list request returns the same array and leaves it in place. -/
theorem C15_list_permutes_and_stores (hotels : List Hotel) :
    ∃ result, listHandler hotels = (⟨200, .records result⟩, result) ∧
      result.Perm hotels ∧ result.length = hotels.length ∧
      listHandler (listHandler hotels).2 = (⟨200, .records result⟩, result) := by
  refine ⟨sortByCreatedAtDesc hotels, rfl, sortByCreatedAtDesc_perm hotels,
    (sortByCreatedAtDesc_perm hotels).length_eq, ?_⟩
  simp only [listHandler, sortByCreatedAtDesc_idem]

/-! ## C14 -/

/-- C14 (fails on the code): on the seed array `DELETE /hotel-api/hotels/2` answers 200
and removes the record of id 2, and the following valid `POST /hotel-api/hotels` answers
201 with a new record whose id is again 2, the id of the record deleted just before. -/
theorem C14_deleted_id_is_given_again (lowerCase : String → String) :
    handle lowerCase deleteTwo 1 (seed 0 0)
        = (⟨200, .record (seasideResort 0)⟩, [hotelSunshine 0]) ∧
      (seasideResort 0).id = 2 ∧
      handle lowerCase postSample 2 [hotelSunshine 0]
        = (⟨201, .record grandPlaza⟩, [hotelSunshine 0, grandPlaza]) ∧
      grandPlaza.id = (seasideResort 0).id := by
  exact ⟨rfl, rfl, rfl, rfl⟩

/-! ## Lemmas on the search handler -/

theorem filterThrowing_eq_filter (f : Hotel → Option Bool) (g : Hotel → Bool)
    (l : List Hotel) (h : ∀ x ∈ l, f x = some (g x)) :
    filterThrowing f l = some (l.filter g) := by
  induction l with
  | nil => rfl
  | cons a t ih =>
    have ha := h a (List.mem_cons_self a t)
    have ht := ih (fun x hx => h x (List.mem_cons_of_mem a hx))
    simp only [filterThrowing, ha, ht, List.filter_cons]

theorem filter_eq_self_of_all (g : Hotel → Bool) (l : List Hotel)
    (h : ∀ x ∈ l, g x = true) : l.filter g = l :=
  List.filter_eq_self.mpr h

/-- One filter statement of the handler selects by `g` when its callback, on a supplied
parameter, returns `g` on every record, and `g` is true when the parameter is not
supplied. -/
theorem filterIfGiven_eq_filter (param : Option QVal) (cb : QVal → Hotel → Option Bool)
    (g : Hotel → Bool) (r : List Hotel)
    (hnone : paramGiven param = none → ∀ x ∈ r, g x = true)
    (hsome : ∀ v, paramGiven param = some v → ∀ x ∈ r, cb v x = some (g x)) :
    filterIfGiven param cb (some r) = some (r.filter g) := by
  unfold filterIfGiven
  cases hp : paramGiven param with
  | none => simp only [filter_eq_self_of_all g r (hnone hp)]
  | some v => exact filterThrowing_eq_filter _ g r (hsome v hp)

theorem paramGiven_plain (param : Option QVal) (hp : plainParam param = true) :
    (paramGiven param = none ∧ (param = none ∨ param = some (.str ""))) ∨
      ∃ s, s ≠ "" ∧ param = some (.str s) ∧ paramGiven param = some (.str s) := by
  cases param with
  | none => exact Or.inl ⟨rfl, Or.inl rfl⟩
  | some v =>
    cases v with
    | str s =>
      by_cases hs : s = ""
      · subst hs
        exact Or.inl ⟨rfl, Or.inr rfl⟩
      · exact Or.inr ⟨s, hs, rfl, by simp [paramGiven, QVal.toBoolean, hs]⟩
    | arr xs => simp [plainParam] at hp
    | obj kvs => simp [plainParam] at hp

theorem locationOk_of_not_given (lowerCase : String → String) (location : Option QVal)
    (hp : location = none ∨ location = some (.str "")) (h : Hotel) :
    locationOk lowerCase location h = true := by
  rcases hp with hp | hp <;> simp [hp, locationOk]

theorem minPriceOk_of_not_given (min_price : Option QVal)
    (hp : min_price = none ∨ min_price = some (.str "")) (h : Hotel) :
    minPriceOk min_price h = true := by
  rcases hp with hp | hp <;> simp [hp, minPriceOk]

theorem maxPriceOk_of_not_given (max_price : Option QVal)
    (hp : max_price = none ∨ max_price = some (.str "")) (h : Hotel) :
    maxPriceOk max_price h = true := by
  rcases hp with hp | hp <;> simp [hp, maxPriceOk]

theorem includes_self (s : String) : includes s s = true := by
  unfold includes
  rw [List.any_eq_true]
  refine ⟨s.data, ?_, ?_⟩
  · cases s.data <;> simp [List.tails]
  · simp

/-- With plain parameters, string locations where the location filter applies and
convertible prices where a price bound applies, the three successive filters of the
handler select the records that satisfy all supplied filters at once. -/
theorem searchResult_eq_specSearch (lowerCase : String → String) (q : Query)
    (hotels : List Hotel)
    (hplain : plainParam q.location = true ∧ plainParam q.min_price = true ∧
      plainParam q.max_price = true)
    (hloc : (∀ h ∈ hotels, ∃ s, h.location = .str s) ∨ paramGiven q.location = none)
    (hprice : (∀ h ∈ hotels, h.price.converts = true) ∨
      (paramGiven q.min_price = none ∧ paramGiven q.max_price = none)) :
    searchResult lowerCase q hotels = some (specSearch lowerCase q hotels) := by
  obtain ⟨hp1, hp2, hp3⟩ := hplain
  have h1 : filterIfGiven q.location (locationMatches lowerCase) (some hotels)
      = some (hotels.filter (locationOk lowerCase q.location)) := by
    apply filterIfGiven_eq_filter
    · intro hn x _
      rcases paramGiven_plain q.location hp1 with ⟨_, hq⟩ | ⟨s, _, _, hg⟩
      · exact locationOk_of_not_given lowerCase _ hq x
      · rw [hg] at hn
        cases hn
    · intro v hv x hx
      rcases paramGiven_plain q.location hp1 with ⟨hn, _⟩ | ⟨s, hs, hq, hg⟩
      · rw [hn] at hv
        cases hv
      · rw [hg] at hv
        cases hv
        have hstr : ∀ h ∈ hotels, ∃ s, h.location = .str s := by
          rcases hloc with h | h
          · exact h
          · rw [hg] at h
            cases h
        obtain ⟨stored, hst⟩ := hstr x hx
        simp [locationMatches, locationOk, hq, hst, hs]
  have hconv : ∀ (param : Option QVal) (s : String),
      paramGiven param = some (.str s) →
      (param = q.min_price ∨ param = q.max_price) → ∀ h ∈ hotels, h.price.converts = true := by
    intro param s hg hwhich
    rcases hprice with h | ⟨hmin, hmax⟩
    · exact h
    · rcases hwhich with hw | hw
      · rw [hw, hmin] at hg
        cases hg
      · rw [hw, hmax] at hg
        cases hg
  have h2 : ∀ r : List Hotel, (∀ x ∈ r, x ∈ hotels) →
      filterIfGiven q.min_price priceAtLeast (some r)
        = some (r.filter (minPriceOk q.min_price)) := by
    intro r hr
    apply filterIfGiven_eq_filter
    · intro hn x _
      rcases paramGiven_plain q.min_price hp2 with ⟨_, hq⟩ | ⟨s, _, _, hg⟩
      · exact minPriceOk_of_not_given _ hq x
      · rw [hg] at hn
        cases hn
    · intro v hv x hx
      rcases paramGiven_plain q.min_price hp2 with ⟨hn, _⟩ | ⟨s, hs, hq, hg⟩
      · rw [hn] at hv
        cases hv
      · have hc := hconv q.min_price s hg (Or.inl rfl) x (hr x hx)
        rw [hg] at hv
        cases hv
        simp [priceAtLeast, parseFloatOf, QVal.toStr, JsVal.toNumber, hc, minPriceOk, hq, hs]
  have h3 : ∀ r : List Hotel, (∀ x ∈ r, x ∈ hotels) →
      filterIfGiven q.max_price priceAtMost (some r)
        = some (r.filter (maxPriceOk q.max_price)) := by
    intro r hr
    apply filterIfGiven_eq_filter
    · intro hn x _
      rcases paramGiven_plain q.max_price hp3 with ⟨_, hq⟩ | ⟨s, _, _, hg⟩
      · exact maxPriceOk_of_not_given _ hq x
      · rw [hg] at hn
        cases hn
    · intro v hv x hx
      rcases paramGiven_plain q.max_price hp3 with ⟨hn, _⟩ | ⟨s, hs, hq, hg⟩
      · rw [hn] at hv
        cases hv
      · have hc := hconv q.max_price s hg (Or.inr rfl) x (hr x hx)
        rw [hg] at hv
        cases hv
        simp [priceAtMost, parseFloatOf, QVal.toStr, JsVal.toNumber, hc, maxPriceOk, hq, hs]
  have hsub1 : ∀ x ∈ hotels.filter (locationOk lowerCase q.location), x ∈ hotels :=
    fun x hx => (List.mem_filter.mp hx).1
  have hsub2 : ∀ x ∈ (hotels.filter (locationOk lowerCase q.location)).filter
      (minPriceOk q.min_price), x ∈ hotels :=
    fun x hx => hsub1 x (List.mem_filter.mp hx).1
  simp only [searchResult]
  rw [h1, h2 _ hsub1, h3 _ hsub2, List.filter_filter, List.filter_filter]
  simp only [specSearch]
  congr 1
  apply List.filter_congr
  intro x _
  simp only [satisfiesFilters]
  cases locationOk lowerCase q.location x <;> cases minPriceOk q.min_price x <;>
    cases maxPriceOk q.max_price x <;> rfl

/-! ## C13 -/

/-- C13 (as stated, fails): three inputs on which the search handler throws and the request
is answered 500 instead of 200 with a list of records.  A valid `POST /hotel-api/hotels`
whose `location` is the number 5 is stored as it is, and a search with `location=istanbul`
then calls `toLowerCase` on that number.  A valid `POST` whose `price` is an object with an
own `toString` entry is stored as it is, and a search with `min_price=120` then fails to
convert that price for the comparison.  And on the seed array the query
`location=a&location=b` reaches the handler as an array, which has no `toLowerCase`. -/
theorem C13_search_throws_on_untyped_values :
    handle toLowerCase postNumericLocation 2 (seed 0 0)
        = (⟨201, .record (newHotel numericLocationPayload 2 (seed 0 0))⟩,
            seed 0 0 ++ [newHotel numericLocationPayload 2 (seed 0 0)]) ∧
      (newHotel numericLocationPayload 2 (seed 0 0)).location = .num (.fin 5) ∧
      searchHandler toLowerCase istanbulQuery
          (seed 0 0 ++ [newHotel numericLocationPayload 2 (seed 0 0)])
        = (⟨500, .exception⟩, seed 0 0 ++ [newHotel numericLocationPayload 2 (seed 0 0)]) ∧
      handle toLowerCase postObjectPrice 2 (seed 0 0)
        = (⟨201, .record (newHotel objectPricePayload 2 (seed 0 0))⟩,
            seed 0 0 ++ [newHotel objectPricePayload 2 (seed 0 0)]) ∧
      (newHotel objectPricePayload 2 (seed 0 0)).price = .obj [("toString", .null)] ∧
      searchHandler toLowerCase minPriceQuery
          (seed 0 0 ++ [newHotel objectPricePayload 2 (seed 0 0)])
        = (⟨500, .exception⟩, seed 0 0 ++ [newHotel objectPricePayload 2 (seed 0 0)]) ∧
      searchHandler toLowerCase repeatedLocationQuery (seed 0 0)
        = (⟨500, .exception⟩, seed 0 0) := by
  refine ⟨rfl, rfl, rfl, rfl, rfl, ?_, rfl⟩
  have h : searchResult toLowerCase minPriceQuery
      (seed 0 0 ++ [newHotel objectPricePayload 2 (seed 0 0)]) = none :=
    Option.isNone_iff_eq_none.mp (by decide!)
  simp only [searchHandler, h]

/-- C13 (amended): for every case table, every array and every search query whose
parameters are omitted or strings, such that every stored location is a string or no
non-empty `location` is supplied, and every stored price converts to a number or no
non-empty price bound is supplied, the search handler answers 200 with exactly the records
of the array, in array order, that satisfy all supplied filters (lower-cased stored
location contains the lower-cased parameter, price at least `min_price`, price at most
`max_price`, bounds inclusive), an omitted or empty parameter imposing no condition; with
no parameter the whole array is returned; the array is left as it is; and a stored location
whose lower-cased form is that of the parameter, such as "Istanbul" for "istanbul", is
matched. -/
theorem C13_search_returns_matching_sublist (lowerCase : String → String) (q : Query)
    (hotels : List Hotel)
    (hplain : plainParam q.location = true ∧ plainParam q.min_price = true ∧
      plainParam q.max_price = true)
    (hloc : (∀ h ∈ hotels, ∃ s, h.location = .str s) ∨ paramGiven q.location = none)
    (hprice : (∀ h ∈ hotels, h.price.converts = true) ∨
      (paramGiven q.min_price = none ∧ paramGiven q.max_price = none)) :
    searchHandler lowerCase q hotels
        = (⟨200, .records (specSearch lowerCase q hotels)⟩, hotels) ∧
      (specSearch lowerCase q hotels).Sublist hotels ∧
      (∀ h, h ∈ specSearch lowerCase q hotels ↔
        h ∈ hotels ∧ locationOk lowerCase q.location h = true ∧
          minPriceOk q.min_price h = true ∧ maxPriceOk q.max_price h = true) ∧
      ((q.location = none ∨ q.location = some (.str "")) →
        (q.min_price = none ∨ q.min_price = some (.str "")) →
        (q.max_price = none ∨ q.max_price = some (.str "")) →
        specSearch lowerCase q hotels = hotels) ∧
      (∀ (h : Hotel) (stored wanted : String), h.location = .str stored →
        lowerCase stored = lowerCase wanted → q.location = some (.str wanted) →
        locationOk lowerCase q.location h = true) := by
  refine ⟨?_, List.filter_sublist hotels, ?_, ?_, ?_⟩
  · simp only [searchHandler, searchResult_eq_specSearch lowerCase q hotels hplain hloc hprice]
  · intro h
    simp only [specSearch, List.mem_filter, satisfiesFilters, Bool.and_eq_true, and_assoc]
  · intro h1 h2 h3
    apply filter_eq_self_of_all
    intro x _
    simp only [satisfiesFilters, locationOk_of_not_given lowerCase _ h1 x,
      minPriceOk_of_not_given _ h2 x, maxPriceOk_of_not_given _ h3 x, Bool.and_self]
  · intro h stored wanted hst hlow hq
    simp [locationOk, hq, hst, hlow, includes_self]

/-- C13 (amended), at a concrete input: with the ASCII case table, `location=istanbul` on
the seed array selects the record whose stored location is "Istanbul", and only that
one. -/
theorem C13_search_returns_matching_sublist_witness :
    specSearch toLowerCase istanbulQuery (seed 0 0) = [hotelSunshine 0] ∧
      (hotelSunshine 0).location = .str "Istanbul" ∧
      (searchHandler toLowerCase istanbulQuery (seed 0 0)
          = (⟨200, .records (specSearch toLowerCase istanbulQuery (seed 0 0))⟩, seed 0 0) ∧
        (specSearch toLowerCase istanbulQuery (seed 0 0)).Sublist (seed 0 0) ∧
        (∀ h, h ∈ specSearch toLowerCase istanbulQuery (seed 0 0) ↔
          h ∈ seed 0 0 ∧ locationOk toLowerCase istanbulQuery.location h = true ∧
            minPriceOk istanbulQuery.min_price h = true ∧
            maxPriceOk istanbulQuery.max_price h = true) ∧
        ((istanbulQuery.location = none ∨ istanbulQuery.location = some (.str "")) →
          (istanbulQuery.min_price = none ∨ istanbulQuery.min_price = some (.str "")) →
          (istanbulQuery.max_price = none ∨ istanbulQuery.max_price = some (.str "")) →
          specSearch toLowerCase istanbulQuery (seed 0 0) = seed 0 0) ∧
        (∀ (h : Hotel) (stored wanted : String), h.location = .str stored →
          toLowerCase stored = toLowerCase wanted →
          istanbulQuery.location = some (.str wanted) →
          locationOk toLowerCase istanbulQuery.location h = true)) :=
  ⟨rfl, rfl, C13_search_returns_matching_sublist toLowerCase istanbulQuery (seed 0 0)
    ⟨rfl, rfl, rfl⟩ (Or.inl (by simp [seed, hotelSunshine, seasideResort]))
    (Or.inr ⟨rfl, rfl⟩)⟩

/-! ## Lemmas on the array each handler leaves behind -/

theorem getByIdHandler_state (idParam : String) (hotels : List Hotel) :
    (getByIdHandler idParam hotels).2 = hotels := by
  simp only [getByIdHandler]
  cases hotels.find? (idMatches (parseInt idParam)) <;> rfl

theorem searchHandler_state (lowerCase : String → String) (q : Query)
    (hotels : List Hotel) : (searchHandler lowerCase q hotels).2 = hotels := by
  unfold searchHandler
  split <;> rfl

theorem createHandler_state (p : Payload) (now : Nat) (hotels : List Hotel) :
    (createHandler p now hotels).2 = hotels ∨
      (createHandler p now hotels).2 = hotels ++ [newHotel p now hotels] := by
  unfold createHandler
  split
  · exact Or.inl rfl
  · exact Or.inr rfl

theorem map_id_mutateFirst (test : Hotel → Bool) (f : Hotel → Hotel)
    (hf : ∀ h, (f h).id = h.id) (hotels : List Hotel) :
    (mutateFirst test f hotels).map Hotel.id = hotels.map Hotel.id := by
  induction hotels with
  | nil => rfl
  | cons a t ih =>
    unfold mutateFirst
    split
    · simp [hf a]
    · simp [ih]

theorem updateHandler_ids (idParam : String) (p : Payload) (hotels : List Hotel) :
    (updateHandler idParam p hotels).2.map Hotel.id = hotels.map Hotel.id := by
  simp only [updateHandler]
  cases hotels.find? (idMatches (parseInt idParam)) with
  | none => rfl
  | some old => exact map_id_mutateFirst _ _ (applyUpdate_id p) hotels

theorem deleteHandler_status_or_state (idParam : String) (hotels : List Hotel) :
    (deleteHandler idParam hotels).1.status = 200 ∨ (deleteHandler idParam hotels).2 = hotels := by
  simp only [deleteHandler]
  cases hotels.findIdx? (idMatches (parseInt idParam)) with
  | none => exact Or.inr rfl
  | some index =>
    left
    simp only
    cases (splice1 index hotels).1.head? <;> rfl

/-! ## The ids held when no delete has succeeded -/

/-- One request that is not a successful delete keeps the held ids a rearrangement of
`1, ..., length`. -/
theorem handle_preserves_ids (lowerCase : String → String) (req : Request) (now : Nat)
    (hotels : List Hotel) (hnd : isSuccessfulDelete lowerCase req now hotels = false)
    (hinv : (hotels.map Hotel.id).Perm (List.range' 1 hotels.length)) :
    ((handle lowerCase req now hotels).2.map Hotel.id).Perm
      (List.range' 1 (handle lowerCase req now hotels).2.length) := by
  unfold isSuccessfulDelete at hnd
  unfold handle at hnd ⊢
  cases hr : route req with
  | none => simpa [hr] using hinv
  | some hp =>
    obtain ⟨h, params⟩ := hp
    simp only [hr] at hnd ⊢
    cases h with
    | list =>
      have hperm := sortByCreatedAtDesc_perm hotels
      simp only [runHandler, listHandler]
      rw [hperm.length_eq]
      exact (hperm.map Hotel.id).trans hinv
    | getById =>
      simp only [runHandler, getByIdHandler_state]
      exact hinv
    | create =>
      simp only [runHandler]
      rcases createHandler_state req.body now hotels with hs | hs
      · rw [hs]
        exact hinv
      · rw [hs]
        simp only [List.map_append, List.map_cons, List.map_nil, List.length_append,
          List.length_cons, List.length_nil, Nat.zero_add, List.range'_1_concat]
        have hid : (newHotel req.body now hotels).id = 1 + hotels.length := by
          simp [newHotel, Nat.add_comm]
        rw [hid]
        exact hinv.append_right _
    | update =>
      simp only [runHandler]
      have hids := updateHandler_ids (paramId params) req.body hotels
      have hlen : (updateHandler (paramId params) req.body hotels).2.length = hotels.length := by
        simpa using congrArg List.length hids
      rw [hids, hlen]
      exact hinv
    | delete =>
      simp only [runHandler] at hnd ⊢
      rcases deleteHandler_status_or_state (paramId params) hotels with hs | hs
      · simp [hs] at hnd
      · rw [hs]
        exact hinv
    | search =>
      simp only [runHandler, searchHandler_state]
      exact hinv

theorem run_preserves_ids (lowerCase : String → String) (reqs : List (Request × Nat)) :
    ∀ hotels : List Hotel, noSuccessfulDelete lowerCase hotels reqs = true →
      (hotels.map Hotel.id).Perm (List.range' 1 hotels.length) →
      ((run lowerCase hotels reqs).map Hotel.id).Perm
        (List.range' 1 (run lowerCase hotels reqs).length) := by
  induction reqs with
  | nil =>
    intro hotels _ hinv
    exact hinv
  | cons rq rest ih =>
    intro hotels hnd hinv
    obtain ⟨req, now⟩ := rq
    simp only [noSuccessfulDelete, Bool.and_eq_true, Bool.not_eq_true'] at hnd
    simp only [run]
    exact ih _ hnd.2 (handle_preserves_ids lowerCase req now hotels hnd.1 hinv)

/-! ## C16 -/

/-- C16: in every state reached from the seed array by a finite sequence of requests none
of which is a successful delete, the held ids are pairwise distinct and are exactly the
integers from 1 to the number of held records, whatever order list has left them in. -/
theorem C16_ids_are_one_to_n_without_delete (lowerCase : String → String) (t0 t1 : Nat)
    (reqs : List (Request × Nat))
    (hnd : noSuccessfulDelete lowerCase (seed t0 t1) reqs = true) :
    ((run lowerCase (seed t0 t1) reqs).map Hotel.id).Nodup ∧
      ∀ k : Nat, k ∈ (run lowerCase (seed t0 t1) reqs).map Hotel.id ↔
        1 ≤ k ∧ k ≤ (run lowerCase (seed t0 t1) reqs).length := by
  have hseed : ((seed t0 t1).map Hotel.id).Perm (List.range' 1 (seed t0 t1).length) := by
    simp [seed, hotelSunshine, seasideResort, List.range']
  have hperm := run_preserves_ids lowerCase reqs (seed t0 t1) hnd hseed
  refine ⟨hperm.nodup_iff.mpr (List.nodup_range' 1 _), ?_⟩
  intro k
  rw [hperm.mem_iff, List.mem_range'_1]
  omega

/-- C16, at a concrete input: a create, a list (which reorders the array) and a get on the
seed array leave the ids 3, 1, 2. -/
theorem C16_ids_are_one_to_n_without_delete_witness :
    (run toLowerCase (seed 0 0) [(postSample, 2), (listAll, 3), (getTwo, 4)]).map Hotel.id
        = [3, 1, 2] ∧
      (((run toLowerCase (seed 0 0) [(postSample, 2), (listAll, 3), (getTwo, 4)]).map
          Hotel.id).Nodup ∧
        ∀ k : Nat,
          k ∈ (run toLowerCase (seed 0 0) [(postSample, 2), (listAll, 3), (getTwo, 4)]).map
              Hotel.id ↔
            1 ≤ k ∧
              k ≤ (run toLowerCase (seed 0 0)
                [(postSample, 2), (listAll, 3), (getTwo, 4)]).length) :=
  ⟨by decide,
    C16_ids_are_one_to_n_without_delete toLowerCase 0 0
      [(postSample, 2), (listAll, 3), (getTwo, 4)] (by decide)⟩

end HotelApi
